import Mathlib

set_option maxRecDepth 40000

/-!
Verification development for the `paperjunkies` session-identity subsystem.

The definitions below are a shallow embedding of the Python sources:
  * `src/lib/persistent_cookie.py` — the Cipher (`encrypt_value` / `decrypt_value`);
  * `src/lib/auth.py` — Session State (`get_auth_state` / `set_auth_state` /
    `clear_auth_state`), `auth_state_from_session`, `update_password`;
  * `src/app.py` — the Session Bootstrap orchestrator (`main`, restricted to its
    auth-relevant prefix) together with `_set_persistent_refresh_cookie`;
  * `src/pages/reset.py` — the Recovery Flow (`main`).

Python strings are modelled as Lean `String`; Python `None` / optional values as
`Option`; raised exceptions as `Except` errors; wall-clock timestamps as `Int`
seconds.  The third-party Fernet authenticated-encryption scheme and the
PBKDF2 key-derivation function are external-library collaborators: they are
modelled as an ideal authenticated cipher (a token built from an injective,
whitespace-free encoding of the derived key and the plaintext, whose decryption
succeeds exactly for the key that produced the token).  This captures the
documented Fernet contract (round-trip under the producing key, `InvalidToken`
on any other key or malformed token) while idealising away cryptographic
collision probabilities.
-/

namespace Paperjunkies

/-- Characters removed by Python's default `str.strip()` (the ASCII whitespace
set relevant to this code base: space, tab, newline, carriage return,
vertical tab, form feed). -/
def pySpace (c : Char) : Bool :=
  c = ' ' || c = '\t' || c = '\n' || c = '\r' || c.toNat = 11 || c.toNat = 12

/-- `str.strip()` on the character list of a Python string. -/
def pyStripList (cs : List Char) : List Char :=
  ((cs.dropWhile pySpace).reverse.dropWhile pySpace).reverse

/-- Python `s.strip()`. -/
def pyStrip (s : String) : String :=
  ⟨pyStripList s.data⟩

/-- Python `s.strip() or None` (used for env/secrets reads such as
`os.getenv("SUPABASE_USER_ID", "").strip() or None`). -/
def strOrNone (s : String) : Option String :=
  if pyStrip s = "" then none else some (pyStrip s)

/-- Python truthiness of an `Optional[str]`: `None` and `""` are falsy. -/
def optTruthy : Option String → Bool
  | none => false
  | some s => s ≠ ""

/-- `str(x) if x else None` on an `Optional[str]`. -/
def normOpt : Option String → Option String
  | none => none
  | some s => if s = "" then none else some s

/-- Hex digit value, as used by `urllib.parse.unquote` percent decoding
(codepoints 48-57 are `0`-`9`, 65-70 are `A`-`F`, 97-102 are `a`-`f`). -/
def hexVal (c : Char) : Option Nat :=
  let n := c.toNat
  if 48 ≤ n ∧ n ≤ 57 then some (n - 48)
  else if 65 ≤ n ∧ n ≤ 70 then some (n - 55)
  else if 97 ≤ n ∧ n ≤ 102 then some (n - 87)
  else none

/-- `urllib.parse.unquote` percent decoding on a character list (ASCII level;
multi-byte UTF-8 sequences play no role in the verified claims). -/
def pyUnquoteList : List Char → List Char
  | [] => []
  | '%' :: a :: b :: rest =>
    match hexVal a, hexVal b with
    | some ha, some hb => Char.ofNat (16 * ha + hb) :: pyUnquoteList rest
    | _, _ => '%' :: pyUnquoteList (a :: b :: rest)
  | c :: rest => c :: pyUnquoteList rest

/-- Python `urllib.parse.unquote`. -/
def pyUnquote (s : String) : String :=
  ⟨pyUnquoteList s.data⟩

/-! ### The Cipher (`src/lib/persistent_cookie.py`)

Fernet/PBKDF2 are modelled as an ideal authenticated cipher: the derived key is
the stripped password (PBKDF2 is deterministic and idealised as injective), and
a token is the character `F`, the unary-encoded key, a `:` separator, and the
unary-encoded plaintext.  Every token character lies in `{F, 1, 0, :}`, so —
like a real base64 Fernet token — a token is non-empty and free of whitespace. -/

/-- Unary, `0`-terminated encoding of one character (injective, whitespace-free). -/
def escChar (c : Char) : List Char :=
  List.replicate c.toNat '1' ++ ['0']

/-- Unary encoding of a character list. -/
def escStr : List Char → List Char
  | [] => []
  | c :: cs => escChar c ++ escStr cs

/-- Decoder for `escStr`, accumulating the unary count of the current
character; returns `none` on any malformed input (including counts that are
not valid Unicode scalar values, mirroring Fernet's rejection of any token it
did not itself produce). -/
def unescFrom : Nat → List Char → Option (List Char)
  | _, [] => none
  | n, c :: rest =>
    if c = '1' then unescFrom (n + 1) rest
    else if c = '0' then
      if h : n.isValidChar then
        match rest with
        | [] => some [Char.ofNatAux n h]
        | _ :: _ => (unescFrom 0 rest).map (Char.ofNatAux n h :: ·)
      else none
    else none

/-- Full decoder for `escStr`. -/
def unescape (cs : List Char) : Option (List Char) :=
  match cs with
  | [] => some []
  | _ :: _ => unescFrom 0 cs

/-- Match the encoded key followed by the `:` separator at the front of a token
payload; return the remainder on success. -/
def stripKey : List Char → List Char → Option (List Char)
  | [], [] => none
  | [], c :: rest => if c = ':' then some rest else none
  | _ :: _, [] => none
  | p :: ps, c :: cs => if c = p then stripKey ps cs else none

/-- Ideal Fernet encryption: `Fernet(key).encrypt(plain)`. -/
def fernetEncrypt (key plain : String) : String :=
  ⟨'F' :: (escStr key.data ++ ':' :: escStr plain.data)⟩

/-- Ideal Fernet decryption: `Fernet(key).decrypt(tok)`, `none` playing the
role of a raised `InvalidToken`. -/
def fernetDecrypt (key tok : String) : Option String :=
  match tok.data with
  | 'F' :: rest =>
    match stripKey (escStr key.data) rest with
    | some payload => (unescape payload).map (fun l => (⟨l⟩ : String))
    | none => none
  | _ => none

/-- `_fernet_from_password` from `src/lib/persistent_cookie.py`: strips the
password, raises `ValueError` when the result is empty, otherwise derives the
key (PBKDF2 idealised as the identity on the stripped password). -/
def fernet_from_password (password : String) : Except Unit String :=
  let clean := pyStrip password
  if clean = "" then .error () else .ok clean

/-- `encrypt_value` from `src/lib/persistent_cookie.py`.  An `Except` error is
the `ValueError` raised for an empty/whitespace-only password. -/
def encrypt_value (password value : String) : Except Unit String :=
  match fernet_from_password password with
  | .error e => .error e
  | .ok key => .ok (fernetEncrypt key value)

/-- `decrypt_value` from `src/lib/persistent_cookie.py`: strips the token,
returns `None` on an empty token, decrypts catching `InvalidToken`/`ValueError`,
strips the plaintext, and maps an empty result to `None`. -/
def decrypt_value (password token : String) : Option String :=
  let clean := pyStrip token
  if clean = "" then none
  else
    match fernet_from_password password with
    | .error _ => none
    | .ok key =>
      match fernetDecrypt key clean with
      | none => none
      | some raw =>
        let out := pyStrip raw
        if out = "" then none else some out

/-! ### Cipher supporting lemmas -/

theorem dropWhile_of_no_sat {p : Char → Bool} :
    ∀ l : List Char, (∀ c ∈ l, p c = false) → List.dropWhile p l = l
  | [], _ => rfl
  | c :: cs, h => by
    rw [List.dropWhile_cons]
    simp [h c (List.mem_cons_self c cs)]

theorem pyStripList_of_no_space (l : List Char) (h : ∀ c ∈ l, pySpace c = false) :
    pyStripList l = l := by
  unfold pyStripList
  rw [dropWhile_of_no_sat l h,
    dropWhile_of_no_sat l.reverse (fun c hc => h c (List.mem_reverse.mp hc))]
  exact List.reverse_reverse l

theorem escStr_mem : ∀ (l : List Char) (x : Char), x ∈ escStr l → x = '1' ∨ x = '0'
  | c :: cs, x, h => by
    simp only [escStr, escChar, List.append_assoc, List.mem_append] at h
    rcases h with h | h | h
    · exact .inl (List.eq_of_mem_replicate h)
    · simp at h; exact .inr h
    · exact escStr_mem cs x h

theorem escStr_ne_nil (c : Char) (cs : List Char) : escStr (c :: cs) ≠ [] := by
  simp only [escStr, escChar, List.append_assoc]
  simp

theorem token_no_space (k p : String) :
    ∀ c ∈ (fernetEncrypt k p).data, pySpace c = false := by
  intro c hc
  have hd : (fernetEncrypt k p).data = 'F' :: (escStr k.data ++ ':' :: escStr p.data) := rfl
  rw [hd] at hc
  rcases List.mem_cons.mp hc with h | h
  · subst h; decide
  · rcases List.mem_append.mp h with h | h
    · rcases escStr_mem _ _ h with h | h <;> (subst h; decide)
    · rcases List.mem_cons.mp h with h | h
      · subst h; decide
      · rcases escStr_mem _ _ h with h | h <;> (subst h; decide)

theorem pyStrip_token (k p : String) : pyStrip (fernetEncrypt k p) = fernetEncrypt k p := by
  show (⟨pyStripList (fernetEncrypt k p).data⟩ : String) = fernetEncrypt k p
  rw [pyStripList_of_no_space _ (token_no_space k p)]

theorem token_ne_empty (k p : String) : fernetEncrypt k p ≠ "" := by
  intro h
  have : (fernetEncrypt k p).data = ("" : String).data := by rw [h]
  simp only [fernetEncrypt] at this
  exact absurd this (by simp [String.data])

theorem stripKey_append : ∀ (p t : List Char), stripKey p (p ++ ':' :: t) = some t
  | [], t => by simp [stripKey]
  | c :: cs, t => by simp [stripKey, stripKey_append cs t]

theorem char_toNat_valid (c : Char) : c.toNat.isValidChar := c.valid

theorem ofNatAux_eq_ofNat (n : Nat) (h : n.isValidChar) :
    Char.ofNatAux n h = Char.ofNat n := by
  rw [Char.ofNat, dif_pos h]

theorem unescFrom_cons (n : Nat) (c : Char) (rest : List Char) :
    unescFrom n (c :: rest) =
      if c = '1' then unescFrom (n + 1) rest
      else if c = '0' then
        if h : n.isValidChar then
          match rest with
          | [] => some [Char.ofNatAux n h]
          | _ :: _ => (unescFrom 0 rest).map (Char.ofNatAux n h :: ·)
        else none
      else none := rfl

theorem unescFrom_replicate (m : Nat) :
    ∀ (n : Nat) (rest : List Char),
      unescFrom n (List.replicate m '1' ++ rest) = unescFrom (n + m) rest := by
  induction m with
  | zero => intro n rest; simp
  | succ k ih =>
    intro n rest
    rw [List.replicate_succ, List.cons_append, unescFrom_cons]
    rw [if_pos rfl, ih (n + 1) rest]
    congr 1
    omega

theorem unescape_nonempty (l : List Char) (h : l ≠ []) : unescape l = unescFrom 0 l := by
  cases l with
  | nil => exact absurd rfl h
  | cons c cs => rfl

theorem unescape_escStr : ∀ l : List Char, unescape (escStr l) = some l := by
  intro l
  induction l with
  | nil => rfl
  | cons c cs ih =>
    have hshape : escStr (c :: cs) = List.replicate c.toNat '1' ++ '0' :: escStr cs := by
      simp [escStr, escChar]
    rw [unescape_nonempty _ (escStr_ne_nil c cs), hshape,
      unescFrom_replicate c.toNat 0 ('0' :: escStr cs), Nat.zero_add, unescFrom_cons]
    rw [if_neg (by decide), if_pos rfl, dif_pos (char_toNat_valid c), ofNatAux_eq_ofNat]
    cases hcs : cs with
    | nil => simp [escStr, Char.ofNat_toNat]
    | cons d ds =>
      have hne := escStr_ne_nil d ds
      cases hes : escStr (d :: ds) with
      | nil => exact absurd hes hne
      | cons e es =>
        have h2 : unescFrom 0 (e :: es) = some (d :: ds) := by
          have := ih
          rw [hcs, hes] at this
          rw [unescape_nonempty _ (by simp)] at this
          exact this
        simp only [h2, Char.ofNat_toNat]
        rfl


theorem replicate_one_zero_inj :
    ∀ (m m' : Nat) (r r' : List Char),
      List.replicate m '1' ++ '0' :: r = List.replicate m' '1' ++ '0' :: r' →
      m = m' ∧ r = r'
  | 0, 0, r, r', h => by simpa using h
  | 0, m' + 1, r, r', h => by
    rw [List.replicate_succ, List.cons_append] at h
    injection h with h1 h2
    exact absurd h1 (by decide)
  | m + 1, 0, r, r', h => by
    rw [List.replicate_succ, List.cons_append] at h
    injection h with h1 h2
    exact absurd h1 (by decide)
  | m + 1, m' + 1, r, r', h => by
    rw [List.replicate_succ, List.cons_append, List.replicate_succ, List.cons_append] at h
    injection h with h1 h2
    obtain ⟨hm, hr⟩ := replicate_one_zero_inj m m' r r' h2
    exact ⟨by omega, hr⟩

theorem escStr_inj : ∀ (l1 l2 : List Char), escStr l1 = escStr l2 → l1 = l2
  | [], [], _ => rfl
  | [], c :: cs, h => absurd h.symm (escStr_ne_nil c cs)
  | c :: cs, [], h => absurd h (escStr_ne_nil c cs)
  | c :: cs, d :: ds, h => by
    have hsh1 : escStr (c :: cs) = List.replicate c.toNat '1' ++ '0' :: escStr cs := by
      simp [escStr, escChar]
    have hsh2 : escStr (d :: ds) = List.replicate d.toNat '1' ++ '0' :: escStr ds := by
      simp [escStr, escChar]
    rw [hsh1, hsh2] at h
    obtain ⟨hm, hr⟩ := replicate_one_zero_inj _ _ _ _ h
    have hc : c = d := by
      have h2 := congrArg Char.ofNat hm
      rwa [Char.ofNat_toNat, Char.ofNat_toNat] at h2
    rw [hc, escStr_inj cs ds hr]

theorem escStr_no_colon (l : List Char) : ∀ c ∈ escStr l, c ≠ ':' := by
  intro c hc
  rcases escStr_mem l c hc with h | h <;> (subst h; decide)

theorem stripKey_wrong :
    ∀ (p q t : List Char), p ≠ q → (∀ c ∈ p, c ≠ ':') → (∀ c ∈ q, c ≠ ':') →
      stripKey p (q ++ ':' :: t) = none
  | [], [], _, hne, _, _ => absurd rfl hne
  | [], d :: qs, t, _, _, hq => by
    rw [List.cons_append]
    simp [stripKey, hq d (List.mem_cons_self d qs)]
  | p :: ps, [], t, _, hp, _ => by
    rw [List.nil_append]
    have hp' : ¬((':' : Char) = p) := fun h => (hp p (List.mem_cons_self p ps)) h.symm
    simp [stripKey, hp']
  | p :: ps, d :: qs, t, hne, hp, hq => by
    rw [List.cons_append]
    by_cases hdp : d = p
    · subst hdp
      have hne' : ps ≠ qs := fun h => hne (by rw [h])
      simp only [stripKey, if_pos rfl]
      exact stripKey_wrong ps qs t hne'
        (fun c hc => hp c (List.mem_cons_of_mem _ hc))
        (fun c hc => hq c (List.mem_cons_of_mem _ hc))
    · simp [stripKey, hdp]

theorem fernetDecrypt_fernetEncrypt (key plain : String) :
    fernetDecrypt key (fernetEncrypt key plain) = some plain := by
  have h1 : fernetDecrypt key (fernetEncrypt key plain) =
      match stripKey (escStr key.data) (escStr key.data ++ ':' :: escStr plain.data) with
      | some payload => (unescape payload).map (fun l => (⟨l⟩ : String))
      | none => none := rfl
  rw [h1, stripKey_append]
  show (unescape (escStr plain.data)).map (fun l => (⟨l⟩ : String)) = some plain
  rw [unescape_escStr]
  rfl

theorem string_data_inj {s t : String} (h : s.data = t.data) : s = t :=
  congrArg String.mk h

theorem fernetDecrypt_wrong_key (key key' plain : String) (h : key' ≠ key) :
    fernetDecrypt key' (fernetEncrypt key plain) = none := by
  have h1 : fernetDecrypt key' (fernetEncrypt key plain) =
      match stripKey (escStr key'.data) (escStr key.data ++ ':' :: escStr plain.data) with
      | some payload => (unescape payload).map (fun l => (⟨l⟩ : String))
      | none => none := rfl
  have hne : escStr key'.data ≠ escStr key.data := by
    intro he
    exact h (string_data_inj (escStr_inj _ _ he))
  rw [h1, stripKey_wrong _ _ _ hne (escStr_no_colon _) (escStr_no_colon _)]

theorem encrypt_value_ok (P T c : String) (henc : encrypt_value P T = .ok c) :
    pyStrip P ≠ "" ∧ c = fernetEncrypt (pyStrip P) T := by
  unfold encrypt_value fernet_from_password at henc
  by_cases hp : pyStrip P = ""
  · simp [hp] at henc
  · refine ⟨hp, ?_⟩
    rw [if_neg hp] at henc
    simpa using henc.symm

theorem decrypt_value_encrypt_value (P T c : String) (henc : encrypt_value P T = .ok c) :
    decrypt_value P c = if pyStrip T = "" then none else some (pyStrip T) := by
  obtain ⟨hp, hc⟩ := encrypt_value_ok P T c henc
  subst hc
  unfold decrypt_value
  rw [pyStrip_token]
  rw [if_neg (token_ne_empty _ _)]
  unfold fernet_from_password
  rw [if_neg hp]
  show (match fernetDecrypt (pyStrip P) (fernetEncrypt (pyStrip P) T) with
    | none => none
    | some raw =>
      let out := pyStrip raw
      if out = "" then none else some out) =
    if pyStrip T = "" then none else some (pyStrip T)
  rw [fernetDecrypt_fernetEncrypt]

theorem decrypt_value_wrong_password (P P' T c : String)
    (henc : encrypt_value P T = .ok c) (h : pyStrip P' ≠ pyStrip P) :
    decrypt_value P' c = none := by
  obtain ⟨hp, hc⟩ := encrypt_value_ok P T c henc
  subst hc
  unfold decrypt_value
  rw [pyStrip_token]
  rw [if_neg (token_ne_empty _ _)]
  unfold fernet_from_password
  by_cases hp' : pyStrip P' = ""
  · rw [if_pos hp']
  · rw [if_neg hp']
    show (match fernetDecrypt (pyStrip P') (fernetEncrypt (pyStrip P) T) with
      | none => none
      | some raw =>
        let out := pyStrip raw
        if out = "" then none else some out) = none
    rw [fernetDecrypt_wrong_key _ _ _ h]

theorem decrypt_value_empty (P : String) : decrypt_value P "" = none := rfl


theorem toNat_ofNatAux (n : Nat) (h : n.isValidChar) :
    (Char.ofNatAux n h).toNat = n := rfl

theorem stripKey_some :
    ∀ (p l rest : List Char), stripKey p l = some rest → l = p ++ ':' :: rest
  | [], [], rest, h => by cases h
  | [], c :: cs, rest, h => by
    by_cases hc : c = ':'
    · subst hc
      simp [stripKey] at h
      rw [h, List.nil_append]
    · simp [stripKey, hc] at h
  | p :: ps, [], rest, h => by cases h
  | p :: ps, c :: cs, rest, h => by
    by_cases hc : c = p
    · subst hc
      simp only [stripKey, if_pos rfl] at h
      rw [List.cons_append, stripKey_some ps cs rest h]
    · simp [stripKey, hc] at h

theorem unescFrom_inv :
    ∀ (payload : List Char) (n : Nat) (l : List Char),
      unescFrom n payload = some l →
      ∃ (m : Nat) (cs : List Char) (c : Char),
        c.toNat = n + m ∧ l = c :: cs ∧
        payload = List.replicate m '1' ++ '0' :: escStr cs
  | [], _, _, h => by cases h
  | c0 :: rest, n, l, h => by
    rw [unescFrom_cons] at h
    by_cases h1 : c0 = '1'
    · subst h1
      rw [if_pos rfl] at h
      obtain ⟨m, cs, c, hc, hl, hp⟩ := unescFrom_inv rest (n + 1) l h
      refine ⟨m + 1, cs, c, by omega, hl, ?_⟩
      rw [List.replicate_succ, List.cons_append, ← hp]
    · rw [if_neg h1] at h
      by_cases h2 : c0 = '0'
      · subst h2
        rw [if_pos rfl] at h
        by_cases h3 : n.isValidChar
        · rw [dif_pos h3] at h
          cases rest with
          | nil =>
            simp only [Option.some.injEq] at h
            exact ⟨0, [], Char.ofNatAux n h3,
              by rw [toNat_ofNatAux]; omega, h.symm, rfl⟩
          | cons r rs =>
            cases h4 : unescFrom 0 (r :: rs) with
            | none => rw [h4] at h; cases h
            | some tail =>
              rw [h4] at h
              have hl2 : l = Char.ofNatAux n h3 :: tail := by simpa using h.symm
              obtain ⟨m', cs', c', hc', hl', hp'⟩ := unescFrom_inv (r :: rs) 0 tail h4
              refine ⟨0, tail, Char.ofNatAux n h3, by rw [toNat_ofNatAux]; omega, hl2, ?_⟩
              have hesc : escStr tail = r :: rs := by
                rw [hl', hp']
                simp [escStr, escChar, hc']
              rw [hesc]
              rfl
        · rw [dif_neg h3] at h; cases h
      · rw [if_neg h2] at h; cases h

theorem unescape_inv (payload l : List Char) (h : unescape payload = some l) :
    payload = escStr l := by
  cases payload with
  | nil =>
    simp only [unescape, Option.some.injEq] at h
    rw [← h]
    rfl
  | cons p ps =>
    have h' : unescFrom 0 (p :: ps) = some l := h
    obtain ⟨m, cs, c, hc, hl, hp⟩ := unescFrom_inv _ _ _ h'
    subst hl
    rw [hp]
    simp [escStr, escChar, hc]

theorem fernetDecrypt_some (key tok t : String) (h : fernetDecrypt key tok = some t) :
    tok = fernetEncrypt key t := by
  unfold fernetDecrypt at h
  split at h
  case h_1 rest heq =>
    cases hsk : stripKey (escStr key.data) rest with
    | none => rw [hsk] at h; exact Option.noConfusion h
    | some payload =>
      rw [hsk] at h
      replace h : (unescape payload).map (fun l => (⟨l⟩ : String)) = some t := h
      cases hu : unescape payload with
      | none => rw [hu] at h; exact Option.noConfusion h
      | some l =>
        rw [hu] at h
        have ht : t = (⟨l⟩ : String) := by simpa using h.symm
        have hp : payload = escStr l := unescape_inv _ _ hu
        have hrest : rest = escStr key.data ++ ':' :: payload := stripKey_some _ _ _ hsk
        apply string_data_inj
        rw [heq, hrest, hp, ht]
        rfl
  case h_2 => cases h

theorem decrypt_value_some (P C t : String) (h : decrypt_value P C = some t) :
    pyStrip P ≠ "" ∧ ∃ v, pyStrip C = fernetEncrypt (pyStrip P) v ∧ t = pyStrip v ∧ t ≠ "" := by
  unfold decrypt_value at h
  by_cases h1 : pyStrip C = ""
  · rw [if_pos h1] at h; cases h
  · rw [if_neg h1] at h
    unfold fernet_from_password at h
    by_cases h2 : pyStrip P = ""
    · rw [if_pos h2] at h
      exact Option.noConfusion h
    · rw [if_neg h2] at h
      have h' : (match fernetDecrypt (pyStrip P) (pyStrip C) with
          | none => none
          | some raw =>
            let out := pyStrip raw
            if out = "" then none else some out) = some t := h
      cases hd : fernetDecrypt (pyStrip P) (pyStrip C) with
      | none => rw [hd] at h'; exact Option.noConfusion h'
      | some raw =>
        rw [hd] at h'
        replace h' : (if pyStrip raw = "" then none else some (pyStrip raw)) = some t := h'
        by_cases h3 : pyStrip raw = ""
        · rw [if_pos h3] at h'
          exact Option.noConfusion h'
        · rw [if_neg h3] at h'
          simp only [Option.some.injEq] at h'
          refine ⟨h2, raw, fernetDecrypt_some _ _ _ hd, h'.symm, ?_⟩
          rw [← h']
          exact h3


/-! ### Session State (`src/lib/auth.py`) -/

/-- `AuthState` dataclass from `src/lib/auth.py`. -/
structure AuthState where
  user_id : String
  access_token : Option String
  refresh_token : Option String
  email : Option String
deriving DecidableEq

/-- The four `st.session_state` keys managed by `set_auth_state` /
`get_auth_state` / `clear_auth_state` (`user_id`, `supabase_access_token`,
`supabase_refresh_token`, `user_email`).  `none` models an absent key. -/
structure SessionAuthKeys where
  user_id : Option String
  supabase_access_token : Option String
  supabase_refresh_token : Option String
  user_email : Option String
deriving DecidableEq

/-- The environment / Streamlit-secrets fallback identity consulted by
`get_auth_state` (`SUPABASE_USER_ID` / `SUPABASE_ACCESS_TOKEN`, read with
default `""`). -/
structure AuthEnv where
  env_user_id : String
  env_access_token : String
  secrets_user_id : String
  secrets_access_token : String
deriving DecidableEq

/-- `_get_session_str` from `src/lib/auth.py`: read a session key, coerce to
string, strip, and map empty to `None`. -/
def get_session_str : Option String → Option String
  | none => none
  | some s => if pyStrip s = "" then none else some (pyStrip s)

/-- `get_auth_state` from `src/lib/auth.py`: the session keys take precedence;
otherwise the env fallback, then the secrets fallback, each via
`.strip() or None`. -/
def get_auth_state (env : AuthEnv) (k : SessionAuthKeys) : Option AuthState :=
  match get_session_str k.user_id with
  | some uid =>
    some ⟨uid, get_session_str k.supabase_access_token,
      get_session_str k.supabase_refresh_token, get_session_str k.user_email⟩
  | none =>
    match strOrNone env.env_user_id with
    | some envUid => some ⟨envUid, strOrNone env.env_access_token, none, none⟩
    | none =>
      match strOrNone env.secrets_user_id with
      | some sUid => some ⟨sUid, strOrNone env.secrets_access_token, none, none⟩
      | none => none

/-- `set_auth_state` from `src/lib/auth.py`: always stores `user_id`; stores a
token/email key only when the value is truthy, popping it otherwise. -/
def set_auth_state (user_id : String) (access_token refresh_token email : Option String) :
    SessionAuthKeys :=
  { user_id := some user_id
    supabase_access_token := if optTruthy access_token then access_token else none
    supabase_refresh_token := if optTruthy refresh_token then refresh_token else none
    user_email := if optTruthy email then email else none }

/-- `clear_auth_state` from `src/lib/auth.py`: pops all four keys. -/
def clear_auth_state : SessionAuthKeys :=
  ⟨none, none, none, none⟩

/-- The attributes of a supabase `Session` object used by
`_session_to_auth_state` (`access_token`, `refresh_token`, `user.id`,
`user.email`); `none` models a missing attribute / missing `user`. -/
structure ProviderSession where
  access_token : Option String
  refresh_token : Option String
  user_id : Option String
  user_email : Option String
deriving DecidableEq

/-- `auth_state_from_session` (`_session_to_auth_state`) from
`src/lib/auth.py`: raises when no truthy user id is present, otherwise
normalises each optional field by truthiness. -/
def auth_state_from_session (s : ProviderSession) : Except Unit AuthState :=
  match s.user_id with
  | none => .error ()
  | some uid =>
    if uid = "" then .error ()
    else .ok ⟨uid, normOpt s.access_token, normOpt s.refresh_token, normOpt s.user_email⟩

/-! ### Session Bootstrap (`src/app.py`, `main`, lines 78-160) -/

/-- Per-execution environment of the Bootstrap run: the wall clock, the
configured cookie password, the cookie component (readiness and current
`sb_refresh_token` value), the raw browser cookie `paperjunkies_rt`, whether
`create_supabase` succeeds, the provider's `refresh_session` behaviour
(`.error` = raised exception; `.ok none` = falsy `resp.session`), and the
env/secrets fallback identity. -/
structure BootEnv where
  now : Int
  cookiePassword : String
  cookiesReady : Bool
  compRefreshToken : Option String
  browserRtCookie : Option String
  clientOk : Bool
  refreshResp : Except Unit (Option ProviderSession)
  authEnv : AuthEnv

/-- The `st.session_state` slice relevant to Bootstrap. -/
structure SessionState where
  auth : SessionAuthKeys
  signoutPending : Bool
  refreshFailureTs : Option Int
  warning : Option String
deriving DecidableEq

/-- Observable outcome of one Bootstrap run: the final session state, the
component cookie value and whether `cookies.save()` ran, the ciphertext (if
any) written to the root-path browser cookie, whether the browser cookie clear
was issued, whether the provider `refresh_session` call was issued, and
whether `st.rerun()` was triggered. -/
structure BootResult where
  session : SessionState
  compRefreshToken : Option String
  compSaveCalled : Bool
  browserWrite : Option String
  browserClearCalled : Bool
  refreshCalled : Bool
  rerunCalled : Bool
deriving DecidableEq

/-- `_set_persistent_refresh_cookie` from `src/app.py`: no write when the
stripped password or token is falsy or encryption raises; otherwise the
ciphertext written into the `paperjunkies_rt` cookie. -/
def set_persistent_refresh_cookie (refresh_token cookie_password : String) : Option String :=
  if pyStrip cookie_password = "" then none
  else if pyStrip refresh_token = "" then none
  else
    match encrypt_value cookie_password refresh_token with
    | .error _ => none
    | .ok ciphertext => some ciphertext

/-- The auth-relevant prefix of `main` from `src/app.py` (lines 98-160):
read/decrypt the persistent cookie, handle the sign-out-pending flag, select
the refresh token, apply the 30-second refresh backoff, and perform the
guarded `refresh_session` attempt with rotation persistence. -/
def bootstrapMain (env : BootEnv) (s0 : SessionState) : BootResult :=
  -- lines 101-109: read and decrypt the root-path persistent cookie
  let persistent_refresh_token : Option String :=
    match env.browserRtCookie with
    | none => none
    | some raw =>
      if raw = "" then none
      else decrypt_value env.cookiePassword (pyUnquote raw)
  -- lines 113-128: sign-out-pending branch, else select the refresh token
  let signout := s0.signoutPending
  let comp0 : Option String :=
    if signout && env.cookiesReady then some "" else env.compRefreshToken
  let save0 : Bool := signout && env.cookiesReady
  let pending1 : Bool := signout && !env.cookiesReady
  let auth0 : SessionAuthKeys := if signout then clear_auth_state else s0.auth
  let refresh_token : Option String :=
    if signout then none
    else if optTruthy persistent_refresh_token then persistent_refresh_token
    else if env.cookiesReady then env.compRefreshToken
    else none
  -- lines 130-134: refresh backoff window
  let recently_failed_refresh : Bool :=
    match s0.refreshFailureTs with
    | some ts => env.now - ts < 30
    | none => false
  let s1 : SessionState := { s0 with auth := auth0, signoutPending := pending1 }
  -- lines 136-160: guarded refresh attempt
  if optTruthy refresh_token && (get_auth_state env.authEnv auth0).isNone
      && !recently_failed_refresh then
    if env.clientOk then
      match env.refreshResp with
      | .error _ =>
        { session :=
            { s1 with
              refreshFailureTs := some env.now
              warning := some "Session expired. Please sign in again." }
          compRefreshToken := comp0
          compSaveCalled := save0
          browserWrite := none
          browserClearCalled := signout
          refreshCalled := true
          rerunCalled := false }
      | .ok none =>
        { session := s1
          compRefreshToken := comp0
          compSaveCalled := save0
          browserWrite := none
          browserClearCalled := signout
          refreshCalled := true
          rerunCalled := false }
      | .ok (some sess) =>
        match auth_state_from_session sess with
        | .error _ =>
          { session :=
              { s1 with
                refreshFailureTs := some env.now
                warning := some "Session expired. Please sign in again." }
            compRefreshToken := comp0
            compSaveCalled := save0
            browserWrite := none
            browserClearCalled := signout
            refreshCalled := true
            rerunCalled := false }
        | .ok astate =>
          let s2 : SessionState := { s1 with
            auth := set_auth_state astate.user_id astate.access_token
              astate.refresh_token astate.email
            refreshFailureTs := none }
          let rotated : Bool :=
            match astate.refresh_token, refresh_token with
            | some nrt, some ort => nrt ≠ ort
            | some _, none => true
            | none, _ => false
          if rotated then
            { session := s2
              compRefreshToken := astate.refresh_token
              compSaveCalled := true
              browserWrite :=
                set_persistent_refresh_cookie (astate.refresh_token.getD "") env.cookiePassword
              browserClearCalled := signout
              refreshCalled := true
              rerunCalled := true }
          else
            { session := s2
              compRefreshToken := comp0
              compSaveCalled := save0
              browserWrite := none
              browserClearCalled := signout
              refreshCalled := true
              rerunCalled := false }
    else
      -- `create_supabase` raised inside the try, before the provider call
      { session :=
          { s1 with
            refreshFailureTs := some env.now
            warning := some "Session expired. Please sign in again." }
        compRefreshToken := comp0
        compSaveCalled := save0
        browserWrite := none
        browserClearCalled := signout
        refreshCalled := false
        rerunCalled := false }
  else
    { session := s1
      compRefreshToken := comp0
      compSaveCalled := save0
      browserWrite := none
      browserClearCalled := signout
      refreshCalled := false
      rerunCalled := false }


/-! ### Recovery Flow (`src/pages/reset.py` and `src/lib/auth.py`) -/

/-- `urllib.parse.unquote_plus` (as applied by `parse_qs` to field values). -/
def pyUnquotePlus (s : String) : String :=
  pyUnquote ⟨s.data.map (fun c => if c = '+' then ' ' else c)⟩

/-- One `k=v` field of a query string, split at the first `=`; blank values
are dropped (`parse_qs` default `keep_blank_values=False`). -/
def parseQsPair (field : String) : Option (String × String) :=
  match field.splitOn "=" with
  | [] => none
  | [_] => none
  | k :: vs =>
    let v := String.intercalate "=" vs
    if v = "" then none else some (k, pyUnquotePlus v)

/-- `_extract_tokens_from_hash` from `src/pages/reset.py`: strip, drop a
leading `#`, parse as a query string, and take the first `access_token` /
`refresh_token` values. -/
def extract_tokens_from_hash (url_hash : String) : Option String × Option String :=
  let h := pyStrip url_hash
  if h = "" then (none, none)
  else
    let h2 := if h.startsWith "#" then h.drop 1 else h
    let pairs := (h2.splitOn "&").filterMap parseQsPair
    ((pairs.find? (fun p => p.1 = "access_token")).map Prod.snd,
     (pairs.find? (fun p => p.1 = "refresh_token")).map Prod.snd)

/-- `exchange_recovery_tokens_for_session` from `src/lib/auth.py`: call the
provider's `set_session`, convert the session, and store it into Session
State; any raise propagates to the caller. -/
def exchange_recovery_tokens_for_session (resp : Except Unit ProviderSession) :
    Except Unit (AuthState × SessionAuthKeys) :=
  match resp with
  | .error e => .error e
  | .ok sess =>
    match auth_state_from_session sess with
    | .error e => .error e
    | .ok a => .ok (a, set_auth_state a.user_id a.access_token a.refresh_token a.email)

/-- Per-execution environment of the reset page: query parameters, whether
`streamlit_js_eval` is importable, the `window.location.hash` it returns, the
provider's `set_session` behaviour, and the env/secrets fallback identity. -/
structure ResetEnv where
  queryAccess : Option String
  queryRefresh : Option String
  jsEvalAvailable : Bool
  urlHash : Option String
  setSessionResp : Except Unit ProviderSession
  authEnv : AuthEnv

/-- The `st.session_state` slice relevant to the reset page: the auth keys,
the cached `recovery_tokens` dict, and the `recovery_session_set` guard. -/
structure ResetState where
  auth : SessionAuthKeys
  recoveryTokens : Option (String × String)
  recoverySessionSet : Bool
deriving DecidableEq

/-- Observable outcome of the token-exchange prefix of the reset page. -/
structure ResetOutcome where
  state : ResetState
  setSessionCalled : Bool
  rerunCalled : Bool
  errorShown : Bool
deriving DecidableEq

/-- The token-exchange prefix of `main` from `src/pages/reset.py`
(lines 59-90): when unauthenticated, obtain recovery tokens from query
parameters, else from the cached URL fragment (caching it and rerunning on
first sight), and perform the guarded one-shot exchange. -/
def resetBootstrap (env : ResetEnv) (s0 : ResetState) : ResetOutcome :=
  match get_auth_state env.authEnv s0.auth with
  | some _ => ⟨s0, false, false, false⟩
  | none =>
    let qa := env.queryAccess.bind strOrNone
    let qr := env.queryRefresh.bind strOrNone
    -- lines 67-75: hash fallback, entered when either token is missing
    let hashStep : Option (String × String) :=
      if (qa.isNone || qr.isNone) && env.jsEvalAvailable && s0.recoveryTokens.isNone then
        match env.urlHash with
        | some h =>
          if pyStrip h ≠ "" then
            match extract_tokens_from_hash h with
            | (some a, some r) => if a ≠ "" && r ≠ "" then some (a, r) else none
            | _ => none
          else none
        | none => none
      else none
    match hashStep with
    | some (a, r) =>
      -- lines 74-75: cache the tokens and rerun; the execution ends here
      ⟨{ s0 with recoveryTokens := some (a, r) }, false, true, false⟩
    | none =>
      -- lines 77-80: read tokens from the cache
      let access : Option String :=
        match qa, qr, s0.recoveryTokens with
        | some a, some _, _ => some a
        | _, _, some (a, _) => strOrNone a
        | _, _, none => qa
      let refresh : Option String :=
        match qa, qr, s0.recoveryTokens with
        | some _, some r, _ => some r
        | _, _, some (_, r) => strOrNone r
        | _, _, none => qr
      -- lines 82-88: guarded one-shot exchange
      if optTruthy access && optTruthy refresh && !s0.recoverySessionSet then
        match exchange_recovery_tokens_for_session env.setSessionResp with
        | .ok (_, keys) =>
          ⟨{ auth := keys, recoveryTokens := s0.recoveryTokens, recoverySessionSet := true },
            true, true, false⟩
        | .error _ => ⟨s0, true, false, true⟩
      else ⟨s0, false, false, false⟩

/-- Environment of `update_password` from `src/lib/auth.py`: whether
`create_supabase` succeeds, and the provider's `set_session` / `update_user`
behaviours. -/
structure UpdateEnv where
  clientOk : Bool
  setSessionResp : Except Unit ProviderSession
  updateUserResp : Except Unit Unit

deriving instance DecidableEq for Except

/-- Observable outcome of `update_password`. -/
structure UpdateOutcome where
  result : Except Unit Unit
  setSessionCalled : Bool
  updateUserCalled : Bool
deriving DecidableEq

/-- `update_password` from `src/lib/auth.py`: raises `ValueError` on a falsy
password, otherwise builds a client and calls `set_session` then
`update_user`.  Note: its only length check is non-emptiness. -/
def update_password (env : UpdateEnv) (new_password : String) : UpdateOutcome :=
  if new_password = "" then ⟨.error (), false, false⟩
  else if !env.clientOk then ⟨.error (), false, false⟩
  else
    match env.setSessionResp with
    | .error _ => ⟨.error (), true, false⟩
    | .ok _ =>
      match env.updateUserResp with
      | .error _ => ⟨.error (), true, true⟩
      | .ok _ => ⟨.ok (), true, true⟩

/-- Observable outcome of the password-form submit handler of
`src/pages/reset.py`. -/
structure SubmitOutcome where
  setSessionCalled : Bool
  updateUserCalled : Bool
  validationErrorShown : Bool
  updateErrorShown : Bool
  successShown : Bool
deriving DecidableEq

/-- The submit handler of `main` from `src/pages/reset.py` (lines 104-121):
reject an empty password, a mismatched confirmation, and a password shorter
than 8 characters, each before any provider interaction.  For any input that
passes validation, the source invokes `update_password` without the required
keyword-only `refresh_token` argument
(`update_password(settings=..., access_token=..., new_password=...)`), so
Python raises `TypeError` at the call site — before the body of
`update_password`, and hence before any `set_session`/`update_user` call, can
run — and the surrounding `except Exception` shows
"Could not update password: ..." and stops.  No retry is attempted. -/
def resetSubmit (new_password confirm : String) : SubmitOutcome :=
  if new_password = "" then ⟨false, false, true, false, false⟩
  else if new_password ≠ confirm then ⟨false, false, true, false, false⟩
  else if new_password.length < 8 then ⟨false, false, true, false, false⟩
  else ⟨false, false, false, true, false⟩

/-! ### Claim theorems -/

/-! ### Supporting lemmas for the Bootstrap and Session State theorems -/

/-- An optional value whose payload is unchanged by `str.strip()`. -/
def stripStable (v : Option String) : Prop :=
  ∀ s, v = some s → pyStrip s = s

theorem get_auth_state_clear (e : AuthEnv)
    (h1 : pyStrip e.env_user_id = "") (h2 : pyStrip e.secrets_user_id = "") :
    get_auth_state e clear_auth_state = none := by
  simp [get_auth_state, get_session_str, clear_auth_state, strOrNone, h1, h2]

theorem get_session_field (v : Option String) (hv : stripStable v) :
    get_session_str (if optTruthy v then v else none) = normOpt v := by
  rcases v with _ | s
  · rfl
  · by_cases hs : s = ""
    · subst hs
      rfl
    · have hps : pyStrip s = s := hv s rfl
      simp [optTruthy, hs, get_session_str, normOpt, hps]

theorem get_auth_state_set_auth_state (envA : AuthEnv) (u : String)
    (a r e : Option String)
    (hu1 : pyStrip u = u) (hu2 : u ≠ "")
    (ha : stripStable a) (hr : stripStable r) (he : stripStable e) :
    get_auth_state envA (set_auth_state u a r e) =
      some ⟨u, normOpt a, normOpt r, normOpt e⟩ := by
  have hgu : get_session_str (some u) = some u := by
    simp [get_session_str, hu1, hu2]
  simp [get_auth_state, set_auth_state, hgu,
    get_session_field a ha, get_session_field r hr, get_session_field e he]

/-- C3: backoff enforcement — with a refresh failure recorded at `ts`, a
refresh token present, no in-memory session and the provider reachable, a
Bootstrap run with `now - ts < 30` issues no `refresh_session` call, while a
run with `now - ts ≥ 30` does issue it. -/
theorem C3_backoff_enforcement (env : BootEnv) (s0 : SessionState) (ts : Int) (r : String)
    (hso : s0.signoutPending = false)
    (hts : s0.refreshFailureTs = some ts)
    (hbr : env.browserRtCookie = none)
    (hready : env.cookiesReady = true)
    (hcomp : env.compRefreshToken = some r) (hr : r ≠ "")
    (hauth : get_auth_state env.authEnv s0.auth = none)
    (hclient : env.clientOk = true) :
    (env.now - ts < 30 → (bootstrapMain env s0).refreshCalled = false) ∧
    (30 ≤ env.now - ts → (bootstrapMain env s0).refreshCalled = true) := by
  constructor
  · intro hlt
    simp only [bootstrapMain, hso, hts, hbr, hready, hcomp, hauth, hclient]
    simp [optTruthy, hr, hlt]
  · intro hge
    have hnlt : ¬(env.now - ts < 30) := by omega
    simp only [bootstrapMain, hso, hts, hbr, hready, hcomp, hauth, hclient]
    simp only [optTruthy, hr, hnlt]
    rcases henv : env.refreshResp with e | os
    · simp [henv, hauth, hr]
    · rcases os with _ | sess
      · simp [henv, hauth, hr]
      · rcases hast : auth_state_from_session sess with e | astate
        · simp [henv, hast, hauth, hr]
        · rcases hrt : astate.refresh_token with _ | nrt
          · simp [henv, hast, hauth, hr, hrt]
          · by_cases heq : nrt = r
            · simp [henv, hast, hauth, hr, hrt, heq]
            · simp [henv, hast, hauth, hr, hrt, heq]

/-- C3 witness: failure recorded at 100; a run at 110 issues no provider
call, a run at 131 does. -/
theorem C3_backoff_enforcement_witness :
    (bootstrapMain ⟨110, "pw", true, some "rt", none, true, .error (), ⟨"", "", "", ""⟩⟩
      ⟨clear_auth_state, false, some 100, none⟩).refreshCalled = false ∧
    (bootstrapMain ⟨131, "pw", true, some "rt", none, true, .error (), ⟨"", "", "", ""⟩⟩
      ⟨clear_auth_state, false, some 100, none⟩).refreshCalled = true :=
  ⟨(C3_backoff_enforcement
      ⟨110, "pw", true, some "rt", none, true, .error (), ⟨"", "", "", ""⟩⟩
      ⟨clear_auth_state, false, some 100, none⟩ 100 "rt"
      rfl rfl rfl rfl rfl (by decide) rfl rfl).1 (by decide),
   (C3_backoff_enforcement
      ⟨131, "pw", true, some "rt", none, true, .error (), ⟨"", "", "", ""⟩⟩
      ⟨clear_auth_state, false, some 100, none⟩ 100 "rt"
      rfl rfl rfl rfl rfl (by decide) rfl rfl).2 (by decide)⟩

/-- C6: sign-out precedence — whenever the sign-out-pending flag is set (and
no dev env/secrets fallback identity is configured), Bootstrap makes no
provider refresh call, clears Session State, issues the browser-cookie clear,
and ends Unauthenticated, for every Token Store content. -/
theorem C6_signout_precedence (env : BootEnv) (s0 : SessionState)
    (hso : s0.signoutPending = true)
    (hfb1 : pyStrip env.authEnv.env_user_id = "")
    (hfb2 : pyStrip env.authEnv.secrets_user_id = "") :
    (bootstrapMain env s0).refreshCalled = false ∧
    (bootstrapMain env s0).session.auth = clear_auth_state ∧
    get_auth_state env.authEnv (bootstrapMain env s0).session.auth = none ∧
    (bootstrapMain env s0).browserClearCalled = true := by
  have hget := get_auth_state_clear env.authEnv hfb1 hfb2
  simp only [bootstrapMain, hso]
  simp [optTruthy, hget]

/-- C6 witness: sign-out pending with a valid refresh token still stored. -/
theorem C6_signout_precedence_witness :
    (bootstrapMain ⟨0, "pw", true, some "rt", none, true, .error (), ⟨"", "", "", ""⟩⟩
      ⟨set_auth_state "u1" none none none, true, none, none⟩).refreshCalled = false ∧
    (bootstrapMain ⟨0, "pw", true, some "rt", none, true, .error (), ⟨"", "", "", ""⟩⟩
      ⟨set_auth_state "u1" none none none, true, none, none⟩).session.auth =
      clear_auth_state :=
  ⟨(C6_signout_precedence
      ⟨0, "pw", true, some "rt", none, true, .error (), ⟨"", "", "", ""⟩⟩
      ⟨set_auth_state "u1" none none none, true, none, none⟩ rfl rfl rfl).1,
   (C6_signout_precedence
      ⟨0, "pw", true, some "rt", none, true, .error (), ⟨"", "", "", ""⟩⟩
      ⟨set_auth_state "u1" none none none, true, none, none⟩ rfl rfl rfl).2.1⟩

/-- C7: refresh-failure atomicity — when the guarded `refresh_session`
attempt raises, Bootstrap leaves the Token Store untouched (no component
write, no save, no browser write or clear), records the backoff timestamp and
the user-visible warning, leaves Session State unchanged (hence still empty),
and ends Unauthenticated. -/
theorem C7_refresh_failure_atomicity (env : BootEnv) (s0 : SessionState) (r : String)
    (hso : s0.signoutPending = false)
    (hts : s0.refreshFailureTs = none)
    (hbr : env.browserRtCookie = none)
    (hready : env.cookiesReady = true)
    (hcomp : env.compRefreshToken = some r) (hr : r ≠ "")
    (hauth : get_auth_state env.authEnv s0.auth = none)
    (hclient : env.clientOk = true)
    (hresp : env.refreshResp = .error ()) :
    bootstrapMain env s0 =
      { session :=
          { auth := s0.auth
            signoutPending := false
            refreshFailureTs := some env.now
            warning := some "Session expired. Please sign in again." }
        compRefreshToken := some r
        compSaveCalled := false
        browserWrite := none
        browserClearCalled := false
        refreshCalled := true
        rerunCalled := false } ∧
    get_auth_state env.authEnv (bootstrapMain env s0).session.auth = none := by
  have hmain : bootstrapMain env s0 =
      { session :=
          { auth := s0.auth
            signoutPending := false
            refreshFailureTs := some env.now
            warning := some "Session expired. Please sign in again." }
        compRefreshToken := some r
        compSaveCalled := false
        browserWrite := none
        browserClearCalled := false
        refreshCalled := true
        rerunCalled := false } := by
    simp only [bootstrapMain, hso, hts, hbr, hready, hcomp, hauth, hclient, hresp]
    simp [optTruthy, hr, hauth]
  exact ⟨hmain, by rw [hmain]; exact hauth⟩

/-- C7 witness: a concrete failing refresh at time 50. -/
theorem C7_refresh_failure_atomicity_witness :
    bootstrapMain ⟨50, "pw", true, some "rt", none, true, .error (), ⟨"", "", "", ""⟩⟩
      ⟨clear_auth_state, false, none, none⟩ =
      { session :=
          { auth := clear_auth_state
            signoutPending := false
            refreshFailureTs := some 50
            warning := some "Session expired. Please sign in again." }
        compRefreshToken := some "rt"
        compSaveCalled := false
        browserWrite := none
        browserClearCalled := false
        refreshCalled := true
        rerunCalled := false } :=
  (C7_refresh_failure_atomicity
      ⟨50, "pw", true, some "rt", none, true, .error (), ⟨"", "", "", ""⟩⟩
      ⟨clear_auth_state, false, none, none⟩ "rt"
      rfl rfl rfl rfl rfl (by decide) rfl rfl rfl).1


/-- C4: rotation persistence — when the provider returns a session whose
(strip-stable, non-empty) refresh token differs from the one presented,
Bootstrap writes the new token into the component cookie, saves it, triggers
a rerun, and writes the new token, encrypted, into the persistent browser
cookie (the ciphertext round-trips under the configured password). -/
theorem C4_rotation_persistence (env : BootEnv) (s0 : SessionState)
    (r nrt u : String) (sa se : Option String)
    (hso : s0.signoutPending = false)
    (hts : s0.refreshFailureTs = none)
    (hbr : env.browserRtCookie = none)
    (hready : env.cookiesReady = true)
    (hcomp : env.compRefreshToken = some r) (hr : r ≠ "")
    (hauth : get_auth_state env.authEnv s0.auth = none)
    (hclient : env.clientOk = true)
    (hresp : env.refreshResp = .ok (some ⟨sa, some nrt, some u, se⟩))
    (hu : u ≠ "") (hnrt : nrt ≠ "") (hrot : nrt ≠ r)
    (hpw : pyStrip env.cookiePassword ≠ "")
    (hstk : pyStrip nrt = nrt) :
    (bootstrapMain env s0).compRefreshToken = some nrt ∧
    (bootstrapMain env s0).compSaveCalled = true ∧
    (bootstrapMain env s0).rerunCalled = true ∧
    ∃ c, (bootstrapMain env s0).browserWrite = some c ∧
      encrypt_value env.cookiePassword nrt = .ok c ∧
      decrypt_value env.cookiePassword c = some nrt := by
  have henc : encrypt_value env.cookiePassword nrt =
      .ok (fernetEncrypt (pyStrip env.cookiePassword) nrt) := by
    unfold encrypt_value fernet_from_password
    rw [if_neg hpw]
  have hast : auth_state_from_session ⟨sa, some nrt, some u, se⟩ =
      .ok ⟨u, normOpt sa, some nrt, normOpt se⟩ := by
    simp [auth_state_from_session, hu, normOpt, hnrt]
  have hbw : set_persistent_refresh_cookie nrt env.cookiePassword =
      some (fernetEncrypt (pyStrip env.cookiePassword) nrt) := by
    unfold set_persistent_refresh_cookie
    rw [if_neg hpw, if_neg (by rw [hstk]; exact hnrt), henc]
  have hdec : decrypt_value env.cookiePassword
      (fernetEncrypt (pyStrip env.cookiePassword) nrt) = some nrt := by
    rw [decrypt_value_encrypt_value env.cookiePassword nrt _ henc, hstk, if_neg hnrt]
  simp only [bootstrapMain, hso, hts, hbr, hready, hcomp, hauth, hclient, hresp, hast]
  refine ⟨?_, ?_, ?_, fernetEncrypt (pyStrip env.cookiePassword) nrt, ?_, henc, hdec⟩ <;>
    simp [optTruthy, hr, hnrt, hrot, hbw, hauth]

/-- C4 witness: the provider rotates `"old"` to `"new"`. -/
theorem C4_rotation_persistence_witness :
    (bootstrapMain ⟨0, "pw", true, some "old", none, true,
        .ok (some ⟨some "at", some "new", some "u1", none⟩), ⟨"", "", "", ""⟩⟩
      ⟨clear_auth_state, false, none, none⟩).compRefreshToken = some "new" ∧
    ∃ c, (bootstrapMain ⟨0, "pw", true, some "old", none, true,
        .ok (some ⟨some "at", some "new", some "u1", none⟩), ⟨"", "", "", ""⟩⟩
      ⟨clear_auth_state, false, none, none⟩).browserWrite = some c ∧
      encrypt_value "pw" "new" = .ok c ∧
      decrypt_value "pw" c = some "new" :=
  ⟨(C4_rotation_persistence
      ⟨0, "pw", true, some "old", none, true,
        .ok (some ⟨some "at", some "new", some "u1", none⟩), ⟨"", "", "", ""⟩⟩
      ⟨clear_auth_state, false, none, none⟩ "old" "new" "u1" (some "at") none
      rfl rfl rfl rfl rfl (by decide) rfl rfl rfl
      (by decide) (by decide) (by decide) (by decide) (by decide)).1,
   (C4_rotation_persistence
      ⟨0, "pw", true, some "old", none, true,
        .ok (some ⟨some "at", some "new", some "u1", none⟩), ⟨"", "", "", ""⟩⟩
      ⟨clear_auth_state, false, none, none⟩ "old" "new" "u1" (some "at") none
      rfl rfl rfl rfl rfl (by decide) rfl rfl rfl
      (by decide) (by decide) (by decide) (by decide) (by decide)).2.2.2⟩

/-- C5: no unnecessary rewrite — when the provider returns a session whose
refresh token equals the one presented, Bootstrap stores the new AuthState in
Session State but leaves the Token Store untouched: no component-cookie
write, no `cookies.save()`, no browser-cookie write or clear, no rerun. -/
theorem C5_no_unnecessary_rewrite (env : BootEnv) (s0 : SessionState)
    (r u a e : String)
    (hso : s0.signoutPending = false)
    (hts : s0.refreshFailureTs = none)
    (hbr : env.browserRtCookie = none)
    (hready : env.cookiesReady = true)
    (hcomp : env.compRefreshToken = some r) (hr : r ≠ "")
    (hauth : get_auth_state env.authEnv s0.auth = none)
    (hclient : env.clientOk = true)
    (hresp : env.refreshResp = .ok (some ⟨some a, some r, some u, some e⟩))
    (hu : u ≠ "") (ha : a ≠ "") (he : e ≠ "")
    (hsu : pyStrip u = u) (hsa : pyStrip a = a) (hsr : pyStrip r = r)
    (hse : pyStrip e = e) :
    (bootstrapMain env s0).compRefreshToken = env.compRefreshToken ∧
    (bootstrapMain env s0).compSaveCalled = false ∧
    (bootstrapMain env s0).browserWrite = none ∧
    (bootstrapMain env s0).browserClearCalled = false ∧
    (bootstrapMain env s0).rerunCalled = false ∧
    (bootstrapMain env s0).session.auth =
      set_auth_state u (some a) (some r) (some e) ∧
    get_auth_state env.authEnv (bootstrapMain env s0).session.auth =
      some ⟨u, some a, some r, some e⟩ := by
  have hast : auth_state_from_session ⟨some a, some r, some u, some e⟩ =
      .ok ⟨u, some a, some r, some e⟩ := by
    simp [auth_state_from_session, hu, normOpt, ha, hr, he]
  have hget : get_auth_state env.authEnv (set_auth_state u (some a) (some r) (some e)) =
      some ⟨u, some a, some r, some e⟩ := by
    have h := get_auth_state_set_auth_state env.authEnv u (some a) (some r) (some e)
      hsu hu (fun s hk => by cases hk; exact hsa) (fun s hk => by cases hk; exact hsr)
      (fun s hk => by cases hk; exact hse)
    simpa [normOpt, ha, hr, he] using h
  simp only [bootstrapMain, hso, hts, hbr, hready, hcomp, hauth, hclient, hresp, hast]
  simp [optTruthy, hauth, hr, hget]

/-- C5 witness: the provider returns the same refresh token `"rt"`. -/
theorem C5_no_unnecessary_rewrite_witness :
    (bootstrapMain ⟨0, "pw", true, some "rt", none, true,
        .ok (some ⟨some "at", some "rt", some "u1", some "e"⟩), ⟨"", "", "", ""⟩⟩
      ⟨clear_auth_state, false, none, none⟩).compSaveCalled = false ∧
    (bootstrapMain ⟨0, "pw", true, some "rt", none, true,
        .ok (some ⟨some "at", some "rt", some "u1", some "e"⟩), ⟨"", "", "", ""⟩⟩
      ⟨clear_auth_state, false, none, none⟩).browserWrite = none ∧
    get_auth_state ⟨"", "", "", ""⟩
      (bootstrapMain ⟨0, "pw", true, some "rt", none, true,
        .ok (some ⟨some "at", some "rt", some "u1", some "e"⟩), ⟨"", "", "", ""⟩⟩
      ⟨clear_auth_state, false, none, none⟩).session.auth =
      some ⟨"u1", some "at", some "rt", some "e"⟩ := by
  have h := C5_no_unnecessary_rewrite
    ⟨0, "pw", true, some "rt", none, true,
      .ok (some ⟨some "at", some "rt", some "u1", some "e"⟩), ⟨"", "", "", ""⟩⟩
    ⟨clear_auth_state, false, none, none⟩ "rt" "u1" "at" "e"
    rfl rfl rfl rfl rfl (by decide) rfl rfl rfl
    (by decide) (by decide) (by decide) (by decide) (by decide) (by decide) (by decide)
  exact ⟨h.2.1, h.2.2.1, h.2.2.2.2.2.2⟩


/-- C8: recovery exchange is one-shot — once the `recovery_session_set` guard
is recorded, a subsequent execution of the reset flow issues no further
provider `set_session` call, whatever the query parameters, cached tokens,
URL fragment, or session state. -/
theorem C8_recovery_exchange_one_shot (env : ResetEnv) (s0 : ResetState)
    (h : s0.recoverySessionSet = true) :
    (resetBootstrap env s0).setSessionCalled = false := by
  unfold resetBootstrap
  repeat' split
  all_goals simp_all
  all_goals repeat' split
  all_goals rfl

/-- C8 witness: a second execution with the cached token pair and the guard
set issues no `set_session` call. -/
theorem C8_recovery_exchange_one_shot_witness :
    (resetBootstrap
      ⟨none, none, true, some "#access_token=a1&refresh_token=r1&type=recovery",
        .ok ⟨some "a1", some "r1", some "u1", none⟩, ⟨"", "", "", ""⟩⟩
      ⟨clear_auth_state, some ("a1", "r1"), true⟩).setSessionCalled = false :=
  C8_recovery_exchange_one_shot
    ⟨none, none, true, some "#access_token=a1&refresh_token=r1&type=recovery",
      .ok ⟨some "a1", some "r1", some "u1", none⟩, ⟨"", "", "", ""⟩⟩
    ⟨clear_auth_state, some ("a1", "r1"), true⟩ rfl

/-- C9: the reset page's submit handler rejects an empty password, a
mismatched confirmation, and a short password before any provider
interaction; but the call it then makes omits the required `refresh_token`
keyword argument of `update_password`, so even a valid submission raises
`TypeError` before `set_session`/`update_user` can be issued: the handler
never reaches the provider for any input, and every valid submission is
answered with a surfaced error instead of a password update. -/
theorem C9_update_password_call_broken :
    (∀ pw confirm, (resetSubmit pw confirm).setSessionCalled = false ∧
      (resetSubmit pw confirm).updateUserCalled = false) ∧
    resetSubmit "password123" "password123" = ⟨false, false, false, true, false⟩ ∧
    resetSubmit "" "" = ⟨false, false, true, false, false⟩ ∧
    resetSubmit "short" "short" = ⟨false, false, true, false, false⟩ ∧
    resetSubmit "abcdefgh" "mismatch" = ⟨false, false, true, false, false⟩ := by
  refine ⟨?_, rfl, rfl, rfl, rfl⟩
  intro pw confirm
  unfold resetSubmit
  repeat' split
  all_goals exact ⟨rfl, rfl⟩

/-- C10 counterexample: `set_auth_state`/`get_auth_state` do not round-trip
as claimed — a stored `user_id` of `" u "` is returned stripped to `"u"`, and
a whitespace-only (non-empty) `user_id` makes `get_auth_state` fall back to
the environment identity. -/
theorem C10_session_roundtrip_counterexample :
    get_auth_state ⟨"", "", "", ""⟩ (set_auth_state " u " none none none) =
      some ⟨"u", none, none, none⟩ ∧
    ("u" : String) ≠ " u " ∧
    get_auth_state ⟨"dev", "", "", ""⟩ (set_auth_state " " (some " ") none none) =
      some ⟨"dev", none, none, none⟩ :=
  ⟨rfl, by decide, rfl⟩

/-- C10 (amended): for a `user_id` that is non-empty and strip-stable and
optional fields whose payloads are strip-stable, `get_auth_state` after
`set_auth_state` returns exactly the stored AuthState — truthy fields kept,
falsy fields normalised to absent — for every environment/secrets fallback
configuration (the fallback is never consulted). -/
theorem C10_session_roundtrip (envA : AuthEnv) (u : String) (a r e : Option String)
    (hu1 : pyStrip u = u) (hu2 : u ≠ "")
    (ha : stripStable a) (hr : stripStable r) (he : stripStable e) :
    get_auth_state envA (set_auth_state u a r e) =
      some ⟨u, normOpt a, normOpt r, normOpt e⟩ :=
  get_auth_state_set_auth_state envA u a r e hu1 hu2 ha hr he

/-- C10 witness: a concrete round-trip with a truthy access token, an absent
refresh token and a falsy email, under a non-trivial fallback environment. -/
theorem C10_session_roundtrip_witness :
    get_auth_state ⟨"dev", "tok", "dev2", "tok2"⟩
      (set_auth_state "u1" (some "at") none (some "")) =
      some ⟨"u1", some "at", none, none⟩ :=
  C10_session_roundtrip ⟨"dev", "tok", "dev2", "tok2"⟩ "u1" (some "at") none (some "")
    (by decide) (by decide)
    (fun s h => by cases h; decide) (fun s h => by cases h) (fun s h => by cases h; decide)

/-- C1 counterexample: the cipher round-trip fails as literally claimed —
decryption strips the plaintext and maps an empty plaintext to absent, so
`decrypt(P, encrypt(P, " x"))` returns `"x"` and `decrypt(P, encrypt(P, ""))`
returns absent. -/
theorem C1_cipher_roundtrip_counterexample :
    (encrypt_value "pw" " x").map (decrypt_value "pw") = .ok (some "x") ∧
    ("x" : String) ≠ " x" ∧
    (encrypt_value "pw" "").map (decrypt_value "pw") = .ok none :=
  ⟨rfl, by decide, rfl⟩

/-- C1 (amended): for every password that is non-empty after stripping and
every non-empty plaintext without surrounding whitespace, encryption succeeds
and decryption returns the plaintext exactly. -/
theorem C1_cipher_roundtrip (P T : String)
    (hP : pyStrip P ≠ "") (hT : pyStrip T = T) (hTne : T ≠ "") :
    ∃ c, encrypt_value P T = .ok c ∧ decrypt_value P c = some T := by
  have henc : encrypt_value P T = .ok (fernetEncrypt (pyStrip P) T) := by
    unfold encrypt_value fernet_from_password
    rw [if_neg hP]
  refine ⟨_, henc, ?_⟩
  rw [decrypt_value_encrypt_value P T _ henc, hT, if_neg hTne]

/-- C1 witness: round-trip of `"x"` under password `"pw"`. -/
theorem C1_cipher_roundtrip_witness :
    ∃ c, encrypt_value "pw" "x" = .ok c ∧ decrypt_value "pw" c = some "x" :=
  C1_cipher_roundtrip "pw" "x" (by decide) (by decide) (by decide)

/-- C2 counterexample: decryption under a *different* password can succeed —
the password is stripped before key derivation, so `" pw" ≠ "pw"` decrypts a
ciphertext produced under `"pw"`. -/
theorem C2_fail_closed_counterexample :
    ((" pw" : String) ≠ "pw") ∧
    (encrypt_value "pw" "x").map (decrypt_value " pw") = .ok (some "x") :=
  ⟨by decide, rfl⟩

/-- C2 (amended): `decrypt_value` fails closed — it returns absent on an
empty token, returns absent for a ciphertext produced under a password with a
different *stripped* form, and succeeds only on a genuine token of the
derived key (so every garbage, tampered or malformed input yields absent);
being a total function into `Option`, it never raises. -/
theorem C2_fail_closed :
    (∀ P, decrypt_value P "" = none) ∧
    (∀ P P' T c, encrypt_value P T = .ok c → pyStrip P' ≠ pyStrip P →
      decrypt_value P' c = none) ∧
    (∀ P C t, decrypt_value P C = some t →
      ∃ v, pyStrip C = fernetEncrypt (pyStrip P) v ∧ t = pyStrip v ∧ t ≠ "") := by
  refine ⟨fun P => rfl, ?_, ?_⟩
  · intro P P' T c henc hne
    exact decrypt_value_wrong_password P P' T c henc hne
  · intro P C t h
    exact (decrypt_value_some P C t h).2

/-- C2 witness: empty input, a wrong-password decryption of a concrete
ciphertext, and the genuine-token certificate of a successful decryption. -/
theorem C2_fail_closed_witness :
    decrypt_value "pw" "" = none ∧
    decrypt_value "pw2" ((encrypt_value "pw" "x").toOption.getD "") = none ∧
    ∃ v, pyStrip ((encrypt_value "pw" "x").toOption.getD "") =
      fernetEncrypt (pyStrip "pw") v ∧ ("x" : String) = pyStrip v ∧ ("x" : String) ≠ "" :=
  ⟨C2_fail_closed.1 "pw",
   C2_fail_closed.2.1 "pw" "pw2" "x" ((encrypt_value "pw" "x").toOption.getD "")
     rfl (by decide),
   C2_fail_closed.2.2 "pw" ((encrypt_value "pw" "x").toOption.getD "") "x" rfl⟩

end Paperjunkies
